import Mathlib

set_option maxRecDepth 100000

/-!
Verification of the threat-generation pipeline of the llm-powered-threat-modelling
repository, by shallow embedding of its TypeScript source into Lean.

Conventions of the embedding:
* JavaScript numbers appearing as threat likelihood / impact / risk scores are
  modelled as `Int`; an absent (`undefined`) numeric field is `Option.none`,
  and arithmetic on it propagates `none` exactly as `undefined * x = NaN`
  propagates (`NaN` fails every `>=` comparison, so it falls to the last
  severity bucket, exactly like `none` does in `jsSeverityOfScore`).
* `JSON.parse` is modelled by the executable `jsonParse` below; it covers the
  JSON fragment the pipeline exchanges (objects, arrays, strings with the
  common escapes, integer numbers, booleans, null).  Fractional numbers and
  `\u` escapes are outside the modelled fragment and are rejected.
* Fresh `nanoid()` identifiers are modelled as the position of the created
  threat/mitigation in its list: a deterministic supply of distinct ids.
* Database rows are Lean structures; an atomic single-row `update ... set`
  becomes a functional record update.  External network calls (the LLM
  provider, object storage) are oracles passed in as explicit data.
-/

/-! ### Risk scoring utilities (packages/shared/src/schemas.ts) -/

inductive RiskSeverity where
  | critical
  | high
  | medium
  | low
  | info
deriving DecidableEq, Repr

/-- `calculateRiskScore(likelihood, impact) = likelihood * impact`. -/
def calculateRiskScore (likelihood impact : Int) : Int :=
  likelihood * impact

/-- `getRiskSeverityFromScore`: fixed thresholds 20/15/10/5. -/
def getRiskSeverityFromScore (score : Int) : RiskSeverity :=
  if score ≥ 20 then .critical
  else if score ≥ 15 then .high
  else if score ≥ 10 then .medium
  else if score ≥ 5 then .low
  else .info

/-! ### JSON values and a model of `JSON.parse` -/

inductive Json where
  | null
  | bool (b : Bool)
  | num (n : Int)
  | str (s : String)
  | arr (elems : List Json)
  | obj (fields : List (String × Json))
deriving Repr

def isJsonWs (c : Char) : Bool :=
  c = ' ' || c = '\n' || c = '\t' || c = '\r'

def skipWs : List Char → List Char
  | [] => []
  | c :: cs => if isJsonWs c then skipWs cs else c :: cs

def escChar (c : Char) : Option Char :=
  if c = '"' then some '"'
  else if c = '\\' then some '\\'
  else if c = '/' then some '/'
  else if c = 'n' then some '\n'
  else if c = 't' then some '\t'
  else if c = 'r' then some '\r'
  else if c = 'b' then some (Char.ofNat 8)
  else if c = 'f' then some (Char.ofNat 12)
  else none

/-- Body of a JSON string literal, after the opening quote.  Returns the
decoded string and the remaining input after the closing quote. -/
def parseStringAux : List Char → List Char → Option (String × List Char)
  | _, [] => none
  | acc, c :: cs =>
    if c = '"' then some (String.mk acc.reverse, cs)
    else if c = '\\' then
      match cs with
      | [] => none
      | e :: cs2 =>
        match escChar e with
        | some ch => parseStringAux (ch :: acc) cs2
        | none => none
    else if c.toNat < 32 then none
    else parseStringAux (c :: acc) cs

def takeDigits : List Char → (List Char × List Char)
  | [] => ([], [])
  | c :: cs =>
    if c.isDigit then
      let p := takeDigits cs
      (c :: p.1, p.2)
    else ([], c :: cs)

def digitsToNat (ds : List Char) : Nat :=
  ds.foldl (fun acc c => acc * 10 + (c.toNat - 48)) 0

/-- Recursive-descent JSON parser, fuelled for structural termination.
Object and array continuations re-enter `parseValue` behind a reinserted
opening bracket, so a single self-recursive function suffices. -/
def parseValue : Nat → List Char → Option (Json × List Char)
  | 0, _ => none
  | fuel + 1, cs =>
    match skipWs cs with
    | [] => none
    | c :: rest =>
      if c = '\x7b' then
        match skipWs rest with
        | '\x7d' :: rest2 => some (.obj [], rest2)
        | '"' :: rest2 =>
          match parseStringAux [] rest2 with
          | none => none
          | some (key, rest3) =>
            match skipWs rest3 with
            | ':' :: rest4 =>
              match parseValue fuel rest4 with
              | none => none
              | some (v, rest5) =>
                match skipWs rest5 with
                | ',' :: rest6 =>
                  match parseValue fuel ('\x7b' :: rest6) with
                  | some (.obj fields, rest7) => some (.obj ((key, v) :: fields), rest7)
                  | _ => none
                | '\x7d' :: rest6 => some (.obj [(key, v)], rest6)
                | _ => none
            | _ => none
        | _ => none
      else if c = '[' then
        match skipWs rest with
        | ']' :: rest2 => some (.arr [], rest2)
        | _ =>
          match parseValue fuel rest with
          | none => none
          | some (v, rest3) =>
            match skipWs rest3 with
            | ',' :: rest4 =>
              match parseValue fuel ('[' :: rest4) with
              | some (.arr vs, rest5) => some (.arr (v :: vs), rest5)
              | _ => none
            | ']' :: rest4 => some (.arr [v], rest4)
            | _ => none
      else if c = '"' then
        match parseStringAux [] rest with
        | some (s, rest2) => some (.str s, rest2)
        | none => none
      else if c = 't' then
        match rest with
        | 'r' :: 'u' :: 'e' :: rest2 => some (.bool true, rest2)
        | _ => none
      else if c = 'f' then
        match rest with
        | 'a' :: 'l' :: 's' :: 'e' :: rest2 => some (.bool false, rest2)
        | _ => none
      else if c = 'n' then
        match rest with
        | 'u' :: 'l' :: 'l' :: rest2 => some (.null, rest2)
        | _ => none
      else if c = '-' then
        match takeDigits rest with
        | ([], _) => none
        | (ds, rest2) => some (.num (-(digitsToNat ds : Int)), rest2)
      else if c.isDigit then
        match takeDigits (c :: rest) with
        | (ds, rest2) => some (.num (digitsToNat ds), rest2)
      else none

/-- Model of `JSON.parse`: parse one value, then require only trailing
whitespace.  `none` corresponds to `JSON.parse` throwing a `SyntaxError`. -/
def jsonParse (s : String) : Option Json :=
  match parseValue (s.length * 4 + 16) s.data with
  | some (v, rest) => if (skipWs rest).isEmpty then some v else none
  | none => none

example : jsonParse "\x7b\"a\": 1\x7d" = some (.obj [("a", .num 1)]) := rfl
example : jsonParse " [1, -2, \"x\", true, null] " =
    some (.arr [.num 1, .num (-2), .str "x", .bool true, .null]) := rfl
example : jsonParse "\x7b\"a\": \x7b\"b\": []\x7d\x7d" =
    some (.obj [("a", .obj [("b", .arr [])])]) := rfl
example : jsonParse "not json" = none := rfl

/-! ### Response extraction (backend/src/services: `parseResponse` and the
`GenerationService` regex fallback) -/

def idxOfChar (c : Char) : List Char → Option Nat
  | [] => none
  | x :: xs =>
    if x = c then some 0
    else match idxOfChar c xs with
      | some k => some (k + 1)
      | none => none

def lastIdxOfChar (c : Char) (cs : List Char) : Option Nat :=
  match idxOfChar c cs.reverse with
  | some k => some (cs.length - 1 - k)
  | none => none

/-- The regex fallback `responseText.match(/\x7b[\s\S]*\x7d/)`: being greedy,
it matches from the first opening brace to the last closing brace of the whole
text, provided that closing brace comes later. -/
def extractJson (s : String) : Option String :=
  let cs := s.data
  match idxOfChar '\x7b' cs, lastIdxOfChar '\x7d' cs with
  | some i, some j =>
    if i < j then some (String.mk ((cs.drop i).take (j - i + 1))) else none
  | _, _ => none

/-- Modelled from the spec: the repository has no balanced-brace scanner; this
definition follows the spec words "search for the first balanced \x7b...\x7d
span in the text", for comparison against `extractJson` above.  Scanning
starts at the first opening brace with depth 1 and returns once depth
returns to zero. -/
def balancedSpanAux : Nat → List Char → List Char → Option (List Char)
  | _, _, [] => none
  | depth, acc, c :: cs =>
    if c = '\x7b' then balancedSpanAux (depth + 1) (c :: acc) cs
    else if c = '\x7d' then
      if depth = 1 then some (c :: acc).reverse
      else balancedSpanAux (depth - 1) (c :: acc) cs
    else balancedSpanAux depth (c :: acc) cs

/-- Modelled from the spec: see `balancedSpanAux`. -/
def firstBalancedBraceSpan (s : String) : Option String :=
  match s.data.dropWhile (fun c => c != '\x7b') with
  | [] => none
  | c :: cs => (balancedSpanAux 1 [c] cs).map String.mk

/-- `parseResponse` (the provider-abstraction pipeline): direct `JSON.parse`
first; on failure run the greedy brace regex and `JSON.parse` its match;
a failed re-parse propagates the decoder's `SyntaxError`, no match raises
the fixed message. -/
def parseResponse (s : String) : Except String Json :=
  match jsonParse s with
  | some v => .ok v
  | none =>
    match extractJson s with
    | some sub =>
      match jsonParse sub with
      | some v => .ok v
      | none => .error "SyntaxError: unexpected token in JSON"
    | none => .error "Failed to parse AI response as JSON"

/-- The `GenerationService.generateThreatsWithAI` parse step: it runs the
greedy brace regex immediately (no direct-parse attempt), raising its fixed
message when the regex finds nothing. -/
def matchAndParse (s : String) : Except String Json :=
  match extractJson s with
  | none => .error "Could not parse AI response as JSON"
  | some sub =>
    match jsonParse sub with
    | some v => .ok v
    | none => .error "SyntaxError: unexpected token in JSON"

/-! ### Untyped field access on parsed JSON -/

/-- `obj.key` on a parsed JSON value; `none` is JavaScript `undefined`.
Duplicate keys keep the last occurrence, as `JSON.parse` does. -/
def objGet (j : Json) (key : String) : Option Json :=
  match j with
  | .obj fields => (fields.reverse.find? (fun p => p.1 = key)).map (fun p => p.2)
  | _ => none

def jsAsStr : Json → Option String
  | .str s => some s
  | _ => none

def jsGetStr (j : Json) (key : String) : Option String :=
  match objGet j key with
  | some (.str s) => some s
  | _ => none

def jsGetNum (j : Json) (key : String) : Option Int :=
  match objGet j key with
  | some (.num n) => some n
  | _ => none

/-! ### Threat normalization (`GenerationService.generateThreatsWithAI`) -/

structure RawMitigation where
  description : Option String
  priority : Option String
  effort : Option String
deriving DecidableEq, Repr

/-- One element of `parsed.threats` as the untyped code sees it: every field
may be `undefined`. -/
structure RawThreat where
  title : Option String
  description : Option String
  category : Option String
  likelihood : Option Int
  impact : Option Int
  affectedComponents : Option (List String)
  attackVector : Option String
  mitigations : Option (List RawMitigation)
deriving DecidableEq, Repr

structure GeneratedMitigation where
  id : Nat
  description : Option String
  priority : String
  effort : String
  status : String
deriving DecidableEq, Repr

structure GeneratedThreat where
  id : Nat
  title : Option String
  description : Option String
  category : Option String
  severity : RiskSeverity
  likelihood : Option Int
  impact : Option Int
  riskScore : Option Int
  affectedComponents : List String
  attackVector : Option String
  mitigations : List GeneratedMitigation
deriving DecidableEq, Repr

/-- `undefined`-propagating multiplication: `calculateRiskScore` applied to a
missing operand yields `NaN`, modelled as `none`. -/
def jsMulOpt : Option Int → Option Int → Option Int
  | some x, some y => some (calculateRiskScore x y)
  | _, _ => none

/-- `getRiskSeverityFromScore(NaN)`: every threshold comparison is false, so
the result is `info`. -/
def jsSeverityOfScore : Option Int → RiskSeverity
  | some s => getRiskSeverityFromScore s
  | none => .info

def enrichMitigation (idx : Nat) (m : RawMitigation) : GeneratedMitigation :=
  { id := idx
    description := m.description
    priority := m.priority.getD "short_term"
    effort := m.effort.getD "medium"
    status := "proposed" }

/-- The body of `parsed.threats.map((t, index) => ...)`: no field validation,
risk score and severity recomputed, mitigations defaulted. -/
def enrichThreat (idx : Nat) (t : RawThreat) : GeneratedThreat :=
  let riskScore := jsMulOpt t.likelihood t.impact
  { id := idx
    title := t.title
    description := t.description
    category := t.category
    severity := jsSeverityOfScore riskScore
    likelihood := t.likelihood
    impact := t.impact
    riskScore := riskScore
    affectedComponents := t.affectedComponents.getD []
    attackVector := t.attackVector
    mitigations := (t.mitigations.getD []).enum.map (fun p => enrichMitigation p.1 p.2) }

/-- Comparator of `threats.sort((a, b) => b.riskScore - a.riskScore)`:
`a` may stay before `b` when `b`'s score does not exceed `a`'s.  A `NaN`
score makes the JavaScript comparator inconsistent and the sort order
unspecified; the model linearizes `none` below every number. -/
def threatLE (a b : GeneratedThreat) : Bool :=
  match a.riskScore, b.riskScore with
  | _, none => true
  | none, some _ => false
  | some x, some y => y ≤ x

/-- Enrich (with positional ids), stable-sort by risk score descending,
truncate to the top 5 — the tail of `generateThreatsWithAI`. -/
def normalizeThreats (ts : List RawThreat) : List GeneratedThreat :=
  let enriched := ts.enum.map (fun p => enrichThreat p.1 p.2)
  (enriched.mergeSort threatLE).take 5

def jsToRawMitigation (j : Json) : RawMitigation :=
  { description := jsGetStr j "description"
    priority := jsGetStr j "priority"
    effort := jsGetStr j "effort" }

def jsToRawThreat (j : Json) : RawThreat :=
  { title := jsGetStr j "title"
    description := jsGetStr j "description"
    category := jsGetStr j "category"
    likelihood := jsGetNum j "likelihood"
    impact := jsGetNum j "impact"
    affectedComponents :=
      match objGet j "affectedComponents" with
      | some (.arr xs) => some (xs.filterMap jsAsStr)
      | _ => none
    attackVector := jsGetStr j "attackVector"
    mitigations :=
      match objGet j "mitigations" with
      | some (.arr xs) => some (xs.map jsToRawMitigation)
      | _ => none }

/-- `parsed.threats.map` demands an array; anything else throws a
`TypeError` that the orchestrator's catch-all converts into a failure. -/
def getThreatsArray (j : Json) : Except String (List Json) :=
  match objGet j "threats" with
  | some (.arr xs) => .ok xs
  | _ => .error "parsed.threats.map is not a function"

structure GenerationResult where
  threats : List GeneratedThreat
  summary : String
  recommendations : List String
deriving DecidableEq, Repr

/-- The pure tail of `GenerationService.generateThreatsWithAI`, from the raw
provider text to the structured result (the network call itself is the
caller's oracle). -/
def generateThreatsFromText (raw : String) : Except String GenerationResult :=
  match matchAndParse raw with
  | .error e => .error e
  | .ok parsed =>
    match getThreatsArray parsed with
    | .error e => .error e
    | .ok ts =>
      .ok { threats := normalizeThreats (ts.map jsToRawThreat)
            summary := (jsGetStr parsed "summary").getD ""
            recommendations :=
              match objGet parsed "recommendations" with
              | some (.arr xs) => xs.filterMap jsAsStr
              | _ => [] }

/-! ### Properties of the normalizer sort -/

/-- The enrichment map with its positional ids, factored out of
`normalizeThreats`. -/
def enrichAll (ts : List RawThreat) : List GeneratedThreat :=
  ts.enum.map (fun p => enrichThreat p.1 p.2)

theorem normalizeThreats_eq (ts : List RawThreat) :
    normalizeThreats ts = ((enrichAll ts).mergeSort threatLE).take 5 := rfl

theorem threatLE_trans : ∀ (a b c : GeneratedThreat),
    threatLE a b → threatLE b c → threatLE a c := by
  intro a b c h1 h2
  simp only [threatLE] at *
  rcases ha : a.riskScore with _ | x <;> rcases hb : b.riskScore with _ | y <;>
    rcases hc : c.riskScore with _ | z <;> simp_all <;> omega

theorem threatLE_total : ∀ (a b : GeneratedThreat), threatLE a b || threatLE b a := by
  intro a b
  simp only [threatLE]
  rcases a.riskScore with _ | x <;> rcases b.riskScore with _ | y <;> simp <;> omega

theorem threatLE_of_eq (a b : GeneratedThreat) (h : a.riskScore = b.riskScore) :
    threatLE a b := by
  simp only [threatLE, h]
  rcases b.riskScore with _ | y <;> simp

theorem enrichThreat_id (idx : Nat) (t : RawThreat) : (enrichThreat idx t).id = idx := rfl

theorem enrichAll_map_id (ts : List RawThreat) :
    (enrichAll ts).map (fun t => t.id) = List.range ts.length := by
  unfold enrichAll
  rw [List.map_map]
  have h : ((fun t : GeneratedThreat => t.id) ∘ (fun p : Nat × RawThreat => enrichThreat p.1 p.2))
      = Prod.fst := by
    funext p
    rfl
  rw [h, List.enum_map_fst]

theorem enrichAll_nodup (ts : List RawThreat) : (enrichAll ts).Nodup := by
  have h := List.nodup_range ts.length
  rw [← enrichAll_map_id ts] at h
  exact h.of_map _

theorem enrichAll_getElem_id (ts : List RawThreat) (k : Nat)
    (hk : k < (enrichAll ts).length) : (enrichAll ts)[k].id = k := by
  unfold enrichAll at hk ⊢
  simp only [List.getElem_map]
  have hk2 : k < ts.enum.length := by simpa using hk
  simp only [List.getElem_enum]
  rfl

theorem mem_enrichAll_eq_getElem (ts : List RawThreat) (x : GeneratedThreat)
    (hx : x ∈ enrichAll ts) :
    ∃ (h : x.id < (enrichAll ts).length), (enrichAll ts)[x.id] = x := by
  obtain ⟨k, hk, hkx⟩ := List.getElem_of_mem hx
  have hid : x.id = k := by
    rw [← hkx]
    exact enrichAll_getElem_id ts k hk
  rw [hid]
  exact ⟨hk, hkx⟩

theorem pair_sublist_of_getElem {α : Type} (l : List α) (p q : Nat)
    (hp : p < l.length) (hq : q < l.length) (hpq : p < q) :
    List.Sublist [l[p], l[q]] l := by
  have h1 : l[p] :: l.drop (p + 1) = l.drop p := List.getElem_cons_drop l p hp
  have hq2 : q - (p + 1) < (l.drop (p + 1)).length := by
    simp only [List.length_drop]
    omega
  have h2 : l[q] ∈ l.drop (p + 1) := by
    have h3 : (l.drop (p + 1))[q - (p + 1)] = l[q] := by
      rw [List.getElem_drop]
      congr 1
      omega
    rw [← h3]
    exact List.getElem_mem hq2
  have h4 : List.Sublist [l[p], l[q]] (l[p] :: l.drop (p + 1)) :=
    List.Sublist.cons₂ _ (List.singleton_sublist.mpr h2)
  rw [h1] at h4
  exact h4.trans (List.drop_sublist p l)

theorem exists_getElem_of_pair_sublist {α : Type} {x y : α} :
    ∀ {l : List α}, List.Sublist [x, y] l →
      ∃ (p q : Nat) (hp : p < l.length) (hq : q < l.length),
        p < q ∧ l[p] = x ∧ l[q] = y := by
  intro l
  induction l with
  | nil =>
    intro h
    cases h
  | cons a l ih =>
    intro h
    cases h with
    | cons _ h2 =>
      obtain ⟨p, q, hp, hq, hpq, hxp, hyq⟩ := ih h2
      refine ⟨p + 1, q + 1, by simpa using Nat.succ_lt_succ hp,
        by simpa using Nat.succ_lt_succ hq, by omega, ?_, ?_⟩
      · simpa using hxp
      · simpa using hyq
    | cons₂ _ h2 =>
      have hy : y ∈ l := List.singleton_sublist.mp h2
      obtain ⟨q, hq, hqy⟩ := List.getElem_of_mem hy
      refine ⟨0, q + 1, by simp, by simpa using Nat.succ_lt_succ hq, by omega, rfl, ?_⟩
      simpa using hqy

/-- Stability of the normalizer sort: positional ids of equal-score threats
stay in increasing order. -/
theorem mergeSort_enrichAll_stable (ts : List RawThreat) :
    ((enrichAll ts).mergeSort threatLE).Pairwise
      (fun a b => a.riskScore = b.riskScore → a.id < b.id) := by
  rw [List.pairwise_iff_getElem]
  intro i j hi hj hij hscore
  have hperm : List.Perm ((enrichAll ts).mergeSort threatLE) (enrichAll ts) :=
    List.mergeSort_perm (enrichAll ts) threatLE
  have hids : (((enrichAll ts).mergeSort threatLE).map (fun t => t.id)).Nodup := by
    have h1 := hperm.map (fun t : GeneratedThreat => t.id)
    have h2 : ((enrichAll ts).map (fun t => t.id)).Nodup := by
      rw [enrichAll_map_id]
      exact List.nodup_range _
    exact h1.symm.nodup h2
  have hidsp : ((enrichAll ts).mergeSort threatLE).Pairwise (fun a b => a.id ≠ b.id) :=
    List.pairwise_map.mp hids
  have hne := (List.pairwise_iff_getElem.mp hidsp) i j hi hj hij
  rcases Nat.lt_or_ge ((enrichAll ts).mergeSort threatLE)[i].id
      ((enrichAll ts).mergeSort threatLE)[j].id with hlt | hge
  · exact hlt
  · exfalso
    have hji : ((enrichAll ts).mergeSort threatLE)[j].id
        < ((enrichAll ts).mergeSort threatLE)[i].id := by omega
    have hmi : ((enrichAll ts).mergeSort threatLE)[i] ∈ enrichAll ts :=
      hperm.mem_iff.mp (List.getElem_mem hi)
    have hmj : ((enrichAll ts).mergeSort threatLE)[j] ∈ enrichAll ts :=
      hperm.mem_iff.mp (List.getElem_mem hj)
    obtain ⟨hbi, hLi⟩ := mem_enrichAll_eq_getElem ts _ hmi
    obtain ⟨hbj, hLj⟩ := mem_enrichAll_eq_getElem ts _ hmj
    have hsub : List.Sublist
        [(enrichAll ts)[((enrichAll ts).mergeSort threatLE)[j].id],
         (enrichAll ts)[((enrichAll ts).mergeSort threatLE)[i].id]]
        (enrichAll ts) :=
      pair_sublist_of_getElem (enrichAll ts) _ _ hbj hbi hji
    rw [hLj, hLi] at hsub
    have hle : threatLE ((enrichAll ts).mergeSort threatLE)[j]
        ((enrichAll ts).mergeSort threatLE)[i] :=
      threatLE_of_eq _ _ hscore.symm
    have hsub2 := List.pair_sublist_mergeSort threatLE_trans threatLE_total hle hsub
    obtain ⟨p, q, hp, hq, hpq, hxp, hxq⟩ := exists_getElem_of_pair_sublist hsub2
    have hndS : ((enrichAll ts).mergeSort threatLE).Nodup :=
      hperm.symm.nodup (enrichAll_nodup ts)
    have hpj : p = j := hndS.getElem_inj_iff.mp hxp
    have hqi : q = i := hndS.getElem_inj_iff.mp hxq
    omega

/-- C1: for every parsed provider response, the normalizer returns at most 5
threats, sorted by riskScore descending; equal scores keep their input order
(positional ids increase), and the output is the 5-prefix of a sorted
permutation of the full enriched list (truncation keeps the top 5 after
sorting). -/
theorem c1_normalizer_top5_sorted_stable (ts : List RawThreat) :
    (normalizeThreats ts).length ≤ 5 ∧
    (normalizeThreats ts).Pairwise
      (fun a b => ∀ x y, a.riskScore = some x → b.riskScore = some y → y ≤ x) ∧
    (normalizeThreats ts).Pairwise (fun a b => a.riskScore = b.riskScore → a.id < b.id) ∧
    ∃ sorted : List GeneratedThreat,
      List.Perm sorted (enrichAll ts) ∧
      sorted.Pairwise (fun a b => threatLE a b = true) ∧
      normalizeThreats ts = sorted.take 5 := by
  refine ⟨?_, ?_, ?_, ?_⟩
  · rw [normalizeThreats_eq]
    exact List.length_take_le ..
  · have hs := List.sorted_mergeSort threatLE_trans threatLE_total (enrichAll ts)
    have hs2 : ((enrichAll ts).mergeSort threatLE).Pairwise
        (fun a b => ∀ x y, a.riskScore = some x → b.riskScore = some y → y ≤ x) := by
      refine hs.imp ?_
      intro a b hab x y hx hy
      simp only [threatLE, hx, hy] at hab
      simpa using hab
    rw [normalizeThreats_eq]
    exact hs2.sublist (List.take_sublist ..)
  · rw [normalizeThreats_eq]
    exact (mergeSort_enrichAll_stable ts).sublist (List.take_sublist ..)
  · exact ⟨(enrichAll ts).mergeSort threatLE,
      List.mergeSort_perm (enrichAll ts) threatLE,
      List.sorted_mergeSort threatLE_trans threatLE_total (enrichAll ts),
      normalizeThreats_eq ts⟩

/-- A fully populated raw threat with the given likelihood and impact. -/
def wellFormedThreat (l i : Int) : RawThreat :=
  { title := some "t"
    description := some "d"
    category := some "spoofing"
    likelihood := some l
    impact := some i
    affectedComponents := some []
    attackVector := none
    mitigations := some [] }

/-- Five well-formed threats with distinct risk scores 25, 20, 15, 10, 5. -/
def c2Input : List RawThreat :=
  [wellFormedThreat 5 5, wellFormedThreat 4 5, wellFormedThreat 3 5,
   wellFormedThreat 2 5, wellFormedThreat 1 5]

/-- C2: at generation time riskScore is likelihood times impact and severity
is derived from it by the fixed thresholds; on five well-formed threats with
scores 25, 20, 15, 10, 5 the normalizer assigns severities critical,
critical, high, medium, low. -/
theorem c2_riskScore_severity_thresholds :
    (∀ (idx : Nat) (t : RawThreat) (l i : Int),
        t.likelihood = some l → t.impact = some i →
        (enrichThreat idx t).riskScore = some (calculateRiskScore l i) ∧
        (enrichThreat idx t).severity = getRiskSeverityFromScore (calculateRiskScore l i)) ∧
    (normalizeThreats c2Input).map (fun t => t.severity) =
      [RiskSeverity.critical, .critical, .high, .medium, .low] := by
  constructor
  · intro idx t l i hl hi
    constructor
    · simp [enrichThreat, jsMulOpt, hl, hi]
    · simp [enrichThreat, jsMulOpt, jsSeverityOfScore, hl, hi]
  · have hs : (enrichAll c2Input).Pairwise (fun a b => threatLE a b = true) := by decide
    rw [normalizeThreats_eq, List.mergeSort_of_sorted hs]
    decide

theorem c2_witness :
    (enrichThreat 0 (wellFormedThreat 4 5)).riskScore = some (calculateRiskScore 4 5) ∧
    (enrichThreat 0 (wellFormedThreat 4 5)).severity
      = getRiskSeverityFromScore (calculateRiskScore 4 5) :=
  c2_riskScore_severity_thresholds.1 0 (wellFormedThreat 4 5) 4 5 rfl rfl

/-! ### C3: parse fallback -/

/-- Raw text containing two separate JSON objects: the first balanced brace
span is valid JSON, but the greedy regex match (first brace to last brace)
is not. -/
def twoObjectResponse : String :=
  "noise \x7b\"a\": 1\x7d more \x7b\"b\": 2\x7d tail"

/-- The claim's fenced-markdown scenario. -/
def fencedResponse : String :=
  "Sure, here is the analysis:\n```json\n\x7b\"threats\": [], \"summary\": \"ok\", \"recommendations\": []\x7d\n```"

def fencedObject : Json :=
  .obj [("threats", .arr []), ("summary", .str "ok"), ("recommendations", .arr [])]

/-- C3 counterexample: on `twoObjectResponse` the direct decode fails and the
first balanced brace span decodes successfully, yet `parseResponse` does not
decode that span: the code's fallback is the greedy first-brace-to-last-brace
match, which is not valid JSON here, so the call errors instead. -/
theorem c3_counterexample_not_first_balanced_span :
    jsonParse twoObjectResponse = none ∧
    firstBalancedBraceSpan twoObjectResponse = some "\x7b\"a\": 1\x7d" ∧
    jsonParse "\x7b\"a\": 1\x7d" = some (.obj [("a", .num 1)]) ∧
    extractJson twoObjectResponse = some "\x7b\"a\": 1\x7d more \x7b\"b\": 2\x7d" ∧
    parseResponse twoObjectResponse = .error "SyntaxError: unexpected token in JSON" :=
  ⟨rfl, rfl, rfl, rfl, rfl⟩

/-- C3 amended: parsing attempts a direct JSON decode; on failure it decodes
the span of the text running from its first opening brace to its last closing
brace (the greedy regex match), signalling the fixed parse error when no such
span exists and the decoder's own error when the span is not valid JSON; on
the fenced-markdown scenario that fallback does locate and parse the embedded
object. -/
theorem c3_amended_parse_policy :
    (∀ (s : String) (v : Json), jsonParse s = some v → parseResponse s = .ok v) ∧
    (∀ (s sub : String) (v : Json), jsonParse s = none → extractJson s = some sub →
        jsonParse sub = some v → parseResponse s = .ok v) ∧
    (∀ (s : String), jsonParse s = none → extractJson s = none →
        parseResponse s = .error "Failed to parse AI response as JSON") ∧
    (∀ (s sub : String), jsonParse s = none → extractJson s = some sub →
        jsonParse sub = none →
        parseResponse s = .error "SyntaxError: unexpected token in JSON") ∧
    parseResponse fencedResponse = .ok fencedObject := by
  refine ⟨?_, ?_, ?_, ?_, rfl⟩
  · intro s v h
    simp [parseResponse, h]
  · intro s sub v h1 h2 h3
    simp [parseResponse, h1, h2, h3]
  · intro s h1 h2
    simp [parseResponse, h1, h2]
  · intro s sub h1 h2 h3
    simp [parseResponse, h1, h2, h3]

theorem c3_witness :
    parseResponse "\x7b\x7d" = .ok (.obj []) ∧
    parseResponse "x \x7b\"k\": 2\x7d" = .ok (.obj [("k", .num 2)]) ∧
    parseResponse "plain text" = .error "Failed to parse AI response as JSON" ∧
    parseResponse "a \x7b]\x7d b" = .error "SyntaxError: unexpected token in JSON" :=
  ⟨c3_amended_parse_policy.1 "\x7b\x7d" (.obj []) rfl,
   c3_amended_parse_policy.2.1 "x \x7b\"k\": 2\x7d" "\x7b\"k\": 2\x7d" (.obj [("k", .num 2)]) rfl rfl rfl,
   c3_amended_parse_policy.2.2.1 "plain text" rfl rfl,
   c3_amended_parse_policy.2.2.2.1 "a \x7b]\x7d b" "\x7b]\x7d" rfl rfl rfl⟩

/-! ### C8: missing required fields -/

/-- A provider response whose single threat has no `title` field. -/
def c8Response : String :=
  "\x7b\"threats\": [\x7b\"description\": \"d\", \"category\": \"spoofing\", \"likelihood\": 4, \"impact\": 5\x7d], \"summary\": \"s\", \"recommendations\": []\x7d"

def c8ThreatJson : Json :=
  .obj [("description", .str "d"), ("category", .str "spoofing"),
        ("likelihood", .num 4), ("impact", .num 5)]

/-- What the pipeline makes of the title-less threat: it is kept, with the
missing title simply left `undefined`. -/
def c8MissingTitleThreat : GeneratedThreat :=
  { id := 0
    title := none
    description := some "d"
    category := some "spoofing"
    severity := .critical
    likelihood := some 4
    impact := some 5
    riskScore := some 20
    affectedComponents := []
    attackVector := none
    mitigations := [] }

/-- C8 counterexample: a threat missing the required `title` field does NOT
fail normalization; the generation succeeds and the title-less threat is in
the accepted result. -/
theorem c8_counterexample_missing_title_accepted :
    generateThreatsFromText c8Response =
      .ok { threats := [c8MissingTitleThreat], summary := "s", recommendations := [] } := by
  have h1 : generateThreatsFromText c8Response =
      .ok { threats := normalizeThreats (List.map jsToRawThreat [c8ThreatJson])
            summary := "s"
            recommendations := [] } := rfl
  have h2 : normalizeThreats (List.map jsToRawThreat [c8ThreatJson]) = [c8MissingTitleThreat] := by
    rw [normalizeThreats_eq]
    have h3 : enrichAll (List.map jsToRawThreat [c8ThreatJson]) = [c8MissingTitleThreat] := rfl
    rw [h3, List.mergeSort_singleton]
    rfl
  rw [h1, h2]

/-- C8 amended: normalization performs no per-threat field validation:
missing title/description/category pass through as `undefined`, a missing
likelihood or impact yields a `NaN` risk score and severity `info`, and the
threat is still accepted.  The only hard failures of this stage are a parse
failure and a response whose `threats` field is not an array. -/
theorem c8_amended_no_field_validation :
    (∀ (idx : Nat) (t : RawThreat),
        (enrichThreat idx t).title = t.title ∧
        (enrichThreat idx t).description = t.description ∧
        (enrichThreat idx t).category = t.category) ∧
    (∀ (idx : Nat) (t : RawThreat), t.likelihood = none ∨ t.impact = none →
        (enrichThreat idx t).riskScore = none ∧ (enrichThreat idx t).severity = .info) ∧
    (∀ j : Json, objGet j "threats" = none →
        getThreatsArray j = .error "parsed.threats.map is not a function") := by
  refine ⟨fun idx t => ⟨rfl, rfl, rfl⟩, ?_, ?_⟩
  · intro idx t h
    have hm : jsMulOpt t.likelihood t.impact = none := by
      rcases h with h | h <;> rcases hl : t.likelihood with _ | x <;>
        rcases hi : t.impact with _ | y <;> simp_all [jsMulOpt]
    constructor
    · show jsMulOpt t.likelihood t.impact = none
      exact hm
    · show jsSeverityOfScore (jsMulOpt t.likelihood t.impact) = .info
      rw [hm]
      rfl
  · intro j h
    simp [getThreatsArray, h]

theorem c8_witness :
    (enrichThreat 0 (jsToRawThreat c8ThreatJson)).title = (jsToRawThreat c8ThreatJson).title ∧
    ((enrichThreat 1 { jsToRawThreat c8ThreatJson with likelihood := none }).riskScore = none ∧
      (enrichThreat 1 { jsToRawThreat c8ThreatJson with likelihood := none }).severity = .info) ∧
    getThreatsArray (.obj []) = .error "parsed.threats.map is not a function" :=
  ⟨(c8_amended_no_field_validation.1 0 (jsToRawThreat c8ThreatJson)).1,
   c8_amended_no_field_validation.2.1 1 { jsToRawThreat c8ThreatJson with likelihood := none }
     (Or.inl rfl),
   c8_amended_no_field_validation.2.2 (.obj []) rfl⟩

/-! ### Threat-model records and the generation orchestrator
(`generateThreatModel` in the provider-abstraction pipeline) -/

inductive Status where
  | draft
  | generating
  | completed
  | failed
deriving DecidableEq, Repr

structure QuestionAnswer where
  questionId : String
  question : String
  answer : String
  category : Option String
deriving Repr

/-- The `threat_models` row, restricted to the columns the pipeline touches.
Generated content is kept as raw parsed JSON, exactly as the completed-update
stores `result.threats` / `result.summary` / `result.recommendations` without
validation; timestamps are modelled as was-set flags. -/
structure TMRecord where
  title : String
  description : Option String
  systemDescription : Option String
  questionsAnswers : List QuestionAnswer
  status : Status
  threats : Option Json
  summary : Option Json
  recommendations : Option Json
  generationError : Option String
  generationStartedAt : Bool
  generationCompletedAt : Bool
deriving Repr

/-- The initial update of `generateThreatModel`: status generating, start
timestamp recorded, previous error cleared. -/
def markGenerating (m : TMRecord) : TMRecord :=
  { m with status := .generating, generationStartedAt := true, generationError := none }

/-- The catch-branch update: status failed, the exception message persisted
verbatim; no other column is written. -/
def failWith (m : TMRecord) (msg : String) : TMRecord :=
  { m with status := .failed, generationError := some msg }

/-- The success update: status completed and the parsed result's fields
stored as they are. -/
def completeWith (m : TMRecord) (result : Json) : TMRecord :=
  { m with status := .completed
           threats := objGet result "threats"
           summary := objGet result "summary"
           recommendations := objGet result "recommendations"
           generationCompletedAt := true }

/-- External effects of one generation attempt.  `providerOutcome` is the
oracle for `provider.complete(...)`: either the raw response text or the
message of the error the call threw. -/
structure GenWorld where
  providerOutcome : Except String String

/-- One run of `generateThreatModel` over an existing row: the initial
`generating` update, then the try/catch body.  Assembly itself cannot throw
(`fileToContentBlock` catches per-item errors), so the try body fails exactly
when the provider call or the response parse does.  Returns the row after
the initial update and the final row. -/
def runGeneration (m : TMRecord) (w : GenWorld) : TMRecord × TMRecord :=
  let m1 := markGenerating m
  match w.providerOutcome with
  | .error e => (m1, failWith m1 e)
  | .ok raw =>
    match parseResponse raw with
    | .error e => (m1, failWith m1 e)
    | .ok result => (m1, completeWith m1 result)

/-! ### The context assembler (`buildTextContext`, `fileToContentBlock`,
the content-block loop of `generateThreatModel`) -/

inductive ContentBlock where
  | text (text : String)
  | image (url : String) (mimeType : String)
  | document (url : String) (mimeType : String) (filename : String)
deriving DecidableEq, Repr

/-- Capability surface of an LLM provider. -/
structure Provider where
  name : String
  supportedImageTypes : List String
  supportsPDF : Bool

/-- `AnthropicProvider` capabilities. -/
def anthropicProvider : Provider :=
  { name := "anthropic"
    supportedImageTypes := ["image/jpeg", "image/png", "image/gif", "image/webp"]
    supportsPDF := true }

/-- `OpenAIProvider` capabilities. -/
def openAIProvider : Provider :=
  { name := "openai"
    supportedImageTypes := ["image/jpeg", "image/png", "image/gif", "image/webp"]
    supportsPDF := false }

/-- Storage oracle: `getUrl` / `get` by storage path, each able to throw. -/
structure Storage where
  getUrl : String → Except String String
  get : String → Except String String

structure ContextFile where
  originalName : String
  mimeType : String
  fileType : String
  storagePath : String
deriving Repr

/-- JavaScript truthiness of an optional string column. -/
def isTruthy : Option String → Bool
  | none => false
  | some s => s != ""

/-- `buildTextContext`: the rendered system-information block. -/
def buildTextContext (m : TMRecord) : String :=
  let c0 := "# System Information\n\n"
  let c1 := if m.title != "" then c0 ++ "## Project: " ++ m.title ++ "\n\n" else c0
  let c2 := match m.description with
    | some d => if d != "" then c1 ++ "## Description\n" ++ d ++ "\n\n" else c1
    | none => c1
  let c3 := match m.systemDescription with
    | some d => if d != "" then c2 ++ "## System Description\n" ++ d ++ "\n\n" else c2
    | none => c2
  if m.questionsAnswers.length > 0 then
    c3 ++ "## Security Questionnaire Responses\n\n"
      ++ String.join (m.questionsAnswers.map
          (fun qa => "### " ++ qa.question ++ "\n" ++ qa.answer ++ "\n\n"))
  else c3

/-- `String.prototype.startsWith`, computably over the character lists. -/
def strStartsWith (s pre : String) : Bool :=
  pre.data.isPrefixOf s.data

/-- `String.prototype.endsWith`, computably over the character lists. -/
def strEndsWith (s post : String) : Bool :=
  post.data.reverse.isPrefixOf s.data.reverse

/-- `fileToContentBlock`: one uploaded file to at most one content block.
The surrounding try/catch maps every thrown storage error to `null`
(= `none`), so a per-item failure never aborts the caller. -/
def fileToContentBlock (file : ContextFile) (provider : Provider) (storage : Storage) :
    Option ContentBlock :=
  match storage.getUrl file.storagePath with
  | .error _ => none
  | .ok fileUrl =>
    if strStartsWith file.mimeType "image/" && provider.supportedImageTypes.contains file.mimeType then
      some (.image fileUrl file.mimeType)
    else if file.mimeType == "application/pdf" then
      if provider.supportsPDF then
        some (.document fileUrl "application/pdf" file.originalName)
      else none
    else if strStartsWith file.mimeType "text/" || file.mimeType == "application/json"
        || strEndsWith file.originalName ".md" || strEndsWith file.originalName ".txt" then
      match storage.get file.storagePath with
      | .error _ => none
      | .ok textContent =>
        some (.text ("\n--- File: " ++ file.originalName ++ " (" ++ file.fileType ++ ") ---\n"
          ++ textContent ++ "\n--- End of " ++ file.originalName ++ " ---\n"))
    else none

structure JiraPerson where
  displayName : String
  email : Option String
deriving Repr

structure JiraComment where
  id : String
  author : String
  body : String
  created : String
deriving Repr

structure JiraLinkedIssue where
  issueKey : String
  title : String
  linkType : String
deriving Repr

structure JiraRemoteLink where
  title : String
  url : String
deriving Repr

structure JiraAttachment where
  filename : String
  mimeType : String
deriving Repr

/-- A stored `jira_tickets` row (denormalized import snapshot). -/
structure JiraTicket where
  issueKey : String
  title : String
  issueType : String
  status : String
  priority : Option String
  description : Option String
  labels : List String
  reporter : Option JiraPerson
  assignee : Option JiraPerson
  comments : List JiraComment
  linkedIssues : List JiraLinkedIssue
  remoteLinks : List JiraRemoteLink
  attachments : List JiraAttachment
deriving Repr

/-- `buildJiraContextFromTicket`: render one stored ticket as text. -/
def buildJiraContextFromTicket (t : JiraTicket) : String :=
  let c0 := "## JIRA Ticket: " ++ t.issueKey ++ "\n\n"
    ++ "**Title:** " ++ t.title ++ "\n"
    ++ "**Type:** " ++ t.issueType ++ "\n"
    ++ "**Status:** " ++ t.status ++ "\n"
    ++ "**Priority:** " ++ (t.priority.getD "Not set") ++ "\n\n"
  let c1 := if isTruthy t.description then
      c0 ++ "### Description\n" ++ t.description.getD "" ++ "\n\n"
    else c0
  let c2 := if t.labels.length > 0 then
      c1 ++ "**Labels:** " ++ String.intercalate ", " t.labels ++ "\n\n"
    else c1
  let c3 := match t.reporter with
    | some r => c2 ++ "**Reporter:** " ++ r.displayName ++ "\n"
    | none => c2
  let c4 := match t.assignee with
    | some a => c3 ++ "**Assignee:** " ++ a.displayName ++ "\n"
    | none => c3
  let c5 := c4 ++ "\n"
  let c6 := if t.comments.length > 0 then
      c5 ++ "### Comments (" ++ toString t.comments.length ++ ")\n\n"
        ++ String.join (t.comments.map
            (fun cm => "**" ++ cm.author ++ "** (" ++ cm.created ++ "):\n" ++ cm.body ++ "\n\n"))
    else c5
  let c7 := if t.linkedIssues.length > 0 then
      c6 ++ "### Linked Issues\n"
        ++ String.join (t.linkedIssues.map
            (fun li => "- " ++ li.linkType ++ ": " ++ li.issueKey ++ " - " ++ li.title ++ "\n"))
        ++ "\n"
    else c6
  let c8 := if t.remoteLinks.length > 0 then
      c7 ++ "### External Links\n"
        ++ String.join (t.remoteLinks.map
            (fun rl => "- [" ++ rl.title ++ "](" ++ rl.url ++ ")\n"))
        ++ "\n"
    else c7
  if t.attachments.length > 0 then
    c8 ++ "### Attachments\n"
      ++ String.join (t.attachments.map
          (fun att => "- " ++ att.filename ++ " (" ++ att.mimeType ++ ")\n"))
      ++ "\n"
  else c8

/-- The JIRA section header block text. -/
def jiraTicketsHeader (n : Nat) : String :=
  "\n## JIRA Tickets (" ++ toString n
    ++ " tickets)\nThe following JIRA tickets provide context for this threat model:\n"

/-- The uploaded-files manifest block text. -/
def fileManifest (files : List ContextFile) : String :=
  "\n## Uploaded Context Files (" ++ toString files.length
    ++ " files)\nThe following files have been uploaded for analysis:\n"
    ++ String.intercalate "\n" (files.map (fun f => "- " ++ f.originalName ++ " (" ++ f.fileType ++ ")"))
    ++ "\n\nPlease analyze these files to understand the system architecture, data flows, and potential security concerns:\n"

/-- The fixed final instruction block text. -/
def analysisRequest : String :=
  "\n\nBased on all the information provided above (system description, JIRA tickets, questionnaire responses, and uploaded documents/diagrams), please analyze this system and generate a threat model with the top 5 most critical security threats."

/-- The per-file pair pushed by the loop: a label block plus the converted
block when conversion succeeds, nothing when the file was skipped. -/
def filePairBlocks (provider : Provider) (storage : Storage) (f : ContextFile) :
    List ContentBlock :=
  match fileToContentBlock f provider storage with
  | some b => [ContentBlock.text ("\n[Analyzing: " ++ f.originalName ++ "]\n"), b]
  | none => []

/-- The content-block assembly of `generateThreatModel`: text context, then
the JIRA section, then the file manifest and per-file blocks, then the final
analysis request. -/
def buildContentBlocks (m : TMRecord) (files : List ContextFile) (tickets : List JiraTicket)
    (provider : Provider) (storage : Storage) : List ContentBlock :=
  [ContentBlock.text (buildTextContext m)]
  ++ (if tickets.length > 0 then
        ContentBlock.text (jiraTicketsHeader tickets.length)
          :: tickets.map (fun t => ContentBlock.text (buildJiraContextFromTicket t))
      else [])
  ++ (if files.length > 0 then [ContentBlock.text (fileManifest files)] else [])
  ++ (files.map (filePairBlocks provider storage)).flatten
  ++ [ContentBlock.text analysisRequest]

/-! ### The generate route (`app.post` on `/:id/generate`) and the threat
CRUD layer (`ThreatModelService.updateThreat`) -/

structure Usage where
  generationsUsed : Nat
  generationsLimit : Nat
deriving DecidableEq, Repr

inductive GenerateRouteResponse where
  | notFound
  | conflict
  | limitReached
  | started
deriving DecidableEq, Repr

structure RouteOutcome where
  response : GenerateRouteResponse
  db : Option TMRecord
  usage : Usage

/-- The generate route handler, including the immediate `generating` update
of the background `generateThreatModel` it schedules (the two are modelled
as one atomic step: the guard is read and the transition applied before the
next request is served).  Missing row gives 404; a row already `generating`
gives the 400 conflict and changes nothing; a non-terminal (draft) row is
subject to the usage quota; terminal rows skip the quota (re-generation). -/
def postGenerate (db : Option TMRecord) (usage : Usage) : RouteOutcome :=
  match db with
  | none => ⟨.notFound, none, usage⟩
  | some model =>
    if model.status = .generating then ⟨.conflict, some model, usage⟩
    else if model.status ≠ .completed ∧ model.status ≠ .failed then
      if usage.generationsLimit ≤ usage.generationsUsed then
        ⟨.limitReached, some model, usage⟩
      else
        ⟨.started, some (markGenerating model),
          { usage with generationsUsed := usage.generationsUsed + 1 }⟩
    else ⟨.started, some (markGenerating model), usage⟩

structure StoredMitigation where
  id : String
  description : String
  priority : String
  effort : String
  status : String
deriving DecidableEq, Repr

/-- A persisted threat as the CRUD layer sees it. -/
structure StoredThreat where
  id : String
  title : String
  description : String
  category : String
  severity : String
  likelihood : Int
  impact : Int
  riskScore : Int
  affectedComponents : List String
  mitigations : List StoredMitigation
deriving DecidableEq, Repr

structure ThreatUpdates where
  severity : Option String
  likelihood : Option Int
  impact : Option Int
deriving DecidableEq, Repr

/-- The per-threat update body of `ThreatModelService.updateThreat`. -/
def applyThreatUpdate (updates : ThreatUpdates) (t : StoredThreat) : StoredThreat :=
  let t1 := match updates.severity with
    | some s => { t with severity := s }
    | none => t
  let t2 := match updates.likelihood with
    | some l => { t1 with likelihood := l }
    | none => t1
  let t3 := match updates.impact with
    | some i => { t2 with impact := i }
    | none => t2
  if updates.likelihood.isSome || updates.impact.isSome then
    { t3 with riskScore := (updates.likelihood.getD t.likelihood) * (updates.impact.getD t.impact) }
  else t3

/-- `ThreatModelService.updateThreat`: map over the stored threat list,
rewriting only the entry with the requested id. -/
def updateThreat (threats : List StoredThreat) (threatId : String) (updates : ThreatUpdates) :
    List StoredThreat :=
  threats.map (fun t => if t.id = threatId then applyThreatUpdate updates t else t)

/-! ### Claim theorems: orchestrator, assembler, route, CRUD -/

/-- C10: whatever the model, files and tickets, the assembled content
sequence has at least two blocks; the first is the rendered context text and
the last is the fixed analysis instruction. -/
theorem c10_blocks_never_empty (m : TMRecord) (files : List ContextFile)
    (tickets : List JiraTicket) (provider : Provider) (storage : Storage) :
    2 ≤ (buildContentBlocks m files tickets provider storage).length ∧
    (buildContentBlocks m files tickets provider storage).head?
      = some (ContentBlock.text (buildTextContext m)) ∧
    (buildContentBlocks m files tickets provider storage).getLast?
      = some (ContentBlock.text analysisRequest) := by
  refine ⟨?_, ?_, ?_⟩
  · simp [buildContentBlocks]
    omega
  · simp [buildContentBlocks]
  · unfold buildContentBlocks
    rw [List.getLast?_append_of_ne_nil]
    · rfl
    · simp

/-- Per-file pairs contribute two blocks per convertible file. -/
theorem filePairBlocks_flatten_length (provider : Provider) (storage : Storage)
    (files : List ContextFile) :
    ((files.map (filePairBlocks provider storage)).flatten).length
      = 2 * files.countP (fun f => (fileToContentBlock f provider storage).isSome) := by
  induction files with
  | nil => rfl
  | cons f fs ih =>
    simp only [List.map_cons, List.flatten_cons, List.length_append, ih, List.countP_cons]
    unfold filePairBlocks
    cases h : fileToContentBlock f provider storage <;> simp [h] <;> omega

def c6Model : TMRecord :=
  { title := "Payment Service"
    description := none
    systemDescription := none
    questionsAnswers := []
    status := .draft
    threats := none
    summary := none
    recommendations := none
    generationError := none
    generationStartedAt := false
    generationCompletedAt := false }

def c6Storage : Storage :=
  { getUrl := fun k => .ok ("https://files/" ++ k)
    get := fun k => .ok ("contents of " ++ k) }

def c6File1 : ContextFile :=
  { originalName := "api-spec.md", mimeType := "text/markdown", fileType := "prd", storagePath := "k1" }

def c6File2 : ContextFile :=
  { originalName := "diagram.png", mimeType := "image/png", fileType := "diagram", storagePath := "k2" }

def c6File3 : ContextFile :=
  { originalName := "build.zip", mimeType := "application/zip", fileType := "other", storagePath := "k3" }

/-- C6: a per-item failure only drops that item: in general the assembled
length is the fixed sections plus two blocks per convertible file (a skipped
file contributes nothing and nothing aborts), and concretely a 3-file model
with one unsupported MIME type yields the manifest, the blocks of the other
two files, and the instruction, with the unsupported file absent. -/
theorem c6_per_item_failure_skipped :
    (∀ (m : TMRecord) (files : List ContextFile) (tickets : List JiraTicket)
        (provider : Provider) (storage : Storage),
        (buildContentBlocks m files tickets provider storage).length
          = 1 + (if tickets.length > 0 then 1 + tickets.length else 0)
            + (if files.length > 0 then 1 else 0)
            + 2 * files.countP (fun f => (fileToContentBlock f provider storage).isSome)
            + 1) ∧
    buildContentBlocks c6Model [c6File1, c6File2, c6File3] [] anthropicProvider c6Storage =
      [ContentBlock.text (buildTextContext c6Model),
       ContentBlock.text (fileManifest [c6File1, c6File2, c6File3]),
       ContentBlock.text "\n[Analyzing: api-spec.md]\n",
       ContentBlock.text "\n--- File: api-spec.md (prd) ---\ncontents of k1\n--- End of api-spec.md ---\n",
       ContentBlock.text "\n[Analyzing: diagram.png]\n",
       ContentBlock.image "https://files/k2" "image/png",
       ContentBlock.text analysisRequest] := by
  constructor
  · intro m files tickets provider storage
    simp only [buildContentBlocks, List.length_append, List.length_cons, List.length_map,
      List.length_singleton, filePairBlocks_flatten_length]
    by_cases ht : tickets.length > 0 <;> by_cases hf : files.length > 0 <;>
      simp [ht, hf] <;> omega
  · rfl

def loginModel : TMRecord :=
  { title := "Login Service"
    description := none
    systemDescription := none
    questionsAnswers :=
      [{ questionId := "system_purpose"
         question := "What is the primary purpose of this system/feature?"
         answer := "User login"
         category := some "Overview" }]
    status := .draft
    threats := none
    summary := none
    recommendations := none
    generationError := none
    generationStartedAt := false
    generationCompletedAt := false }

def c7World : GenWorld :=
  { providerOutcome := .ok "\x7b\"threats\": [], \"summary\": \"ok\", \"recommendations\": []\x7d" }

/-- C7: a model with no files and no tickets, only a title and one
question/answer pair, assembles into exactly two text blocks (context and
instruction); a provider answering with an empty threats object completes
the model with an empty threat list. -/
theorem c7_minimal_model_two_blocks_completed :
    buildContentBlocks loginModel [] [] anthropicProvider c6Storage =
      [ContentBlock.text (buildTextContext loginModel), ContentBlock.text analysisRequest] ∧
    (runGeneration loginModel c7World).2.status = .completed ∧
    (runGeneration loginModel c7World).2.threats = some (Json.arr []) ∧
    (runGeneration loginModel c7World).2.summary = some (Json.str "ok") :=
  ⟨rfl, rfl, rfl, rfl⟩

/-- C5: whenever the attempt's provider call or response parse raises, the
run goes from `generating` straight to `failed`, persists the raised message
verbatim, and leaves threats, summary and recommendations untouched. -/
theorem c5_failure_transitions_and_frame (m : TMRecord) (w : GenWorld) (msg : String)
    (h : (match w.providerOutcome with
          | .error e => some e
          | .ok raw =>
            match parseResponse raw with
            | .error e => some e
            | .ok _ => none) = some msg) :
    (runGeneration m w).1.status = .generating ∧
    (runGeneration m w).2.status = .failed ∧
    (runGeneration m w).2.generationError = some msg ∧
    (runGeneration m w).2.threats = m.threats ∧
    (runGeneration m w).2.summary = m.summary ∧
    (runGeneration m w).2.recommendations = m.recommendations := by
  rcases hw : w.providerOutcome with e | raw
  · simp only [hw, Option.some.injEq] at h
    subst h
    simp [runGeneration, hw, markGenerating, failWith]
  · rcases hp : parseResponse raw with e | result
    · simp only [hw, hp, Option.some.injEq] at h
      subst h
      simp [runGeneration, hw, hp, markGenerating, failWith]
    · simp [hw, hp] at h

theorem c5_witness :
    (runGeneration c6Model { providerOutcome := .error "network error" }).1.status
      = .generating ∧
    (runGeneration c6Model { providerOutcome := .error "network error" }).2.status = .failed ∧
    (runGeneration c6Model { providerOutcome := .error "network error" }).2.generationError
      = some "network error" ∧
    (runGeneration c6Model { providerOutcome := .error "network error" }).2.threats
      = c6Model.threats ∧
    (runGeneration c6Model { providerOutcome := .error "network error" }).2.summary
      = c6Model.summary ∧
    (runGeneration c6Model { providerOutcome := .error "network error" }).2.recommendations
      = c6Model.recommendations :=
  c5_failure_transitions_and_frame c6Model { providerOutcome := .error "network error" }
    "network error" rfl

/-- C4: two immediate start requests on a draft model with quota available
perform exactly one transition to `generating`; the second request gets the
conflict response and changes neither the row nor the usage counter.  In
general any request on a model already `generating` is answered with the
conflict and leaves everything untouched. -/
theorem c4_double_start_one_transition_one_conflict :
    (∀ (m : TMRecord) (u : Usage), m.status = .draft →
        u.generationsUsed < u.generationsLimit →
        (postGenerate (some m) u).response = .started ∧
        ((postGenerate (some m) u).db.map (fun r => r.status)) = some .generating ∧
        (postGenerate (postGenerate (some m) u).db (postGenerate (some m) u).usage).response
          = .conflict ∧
        (postGenerate (postGenerate (some m) u).db (postGenerate (some m) u).usage).db
          = (postGenerate (some m) u).db ∧
        (postGenerate (postGenerate (some m) u).db (postGenerate (some m) u).usage).usage
          = (postGenerate (some m) u).usage) ∧
    (∀ (m : TMRecord) (u : Usage), m.status = .generating →
        postGenerate (some m) u = ⟨.conflict, some m, u⟩) := by
  constructor
  · intro m u hd hq
    have hnq : ¬ (u.generationsLimit ≤ u.generationsUsed) := by omega
    have h1 : postGenerate (some m) u =
        ⟨.started, some (markGenerating m),
         { u with generationsUsed := u.generationsUsed + 1 }⟩ := by
      simp [postGenerate, hd, hnq]
    have h2 : postGenerate (some (markGenerating m))
        { u with generationsUsed := u.generationsUsed + 1 } =
        ⟨.conflict, some (markGenerating m),
         { u with generationsUsed := u.generationsUsed + 1 }⟩ := by
      simp [postGenerate, markGenerating]
    rw [h1]
    refine ⟨rfl, rfl, ?_, ?_, ?_⟩
    · show (postGenerate (some (markGenerating m))
          { u with generationsUsed := u.generationsUsed + 1 }).response = .conflict
      rw [h2]
    · show (postGenerate (some (markGenerating m))
          { u with generationsUsed := u.generationsUsed + 1 }).db = some (markGenerating m)
      rw [h2]
    · show (postGenerate (some (markGenerating m))
          { u with generationsUsed := u.generationsUsed + 1 }).usage
        = { u with generationsUsed := u.generationsUsed + 1 }
      rw [h2]
  · intro m u hg
    simp [postGenerate, hg]

theorem c4_witness :
    (postGenerate (some c6Model) ⟨0, 10⟩).response = .started ∧
    ((postGenerate (some c6Model) ⟨0, 10⟩).db.map (fun r => r.status)) = some .generating ∧
    (postGenerate (postGenerate (some c6Model) ⟨0, 10⟩).db
        (postGenerate (some c6Model) ⟨0, 10⟩).usage).response = .conflict ∧
    (postGenerate (postGenerate (some c6Model) ⟨0, 10⟩).db
        (postGenerate (some c6Model) ⟨0, 10⟩).usage).db
      = (postGenerate (some c6Model) ⟨0, 10⟩).db ∧
    (postGenerate (postGenerate (some c6Model) ⟨0, 10⟩).db
        (postGenerate (some c6Model) ⟨0, 10⟩).usage).usage
      = (postGenerate (some c6Model) ⟨0, 10⟩).usage :=
  c4_double_start_one_transition_one_conflict.1 c6Model ⟨0, 10⟩ rfl (by decide)

/-- C9: `updateThreat` rewrites only the targeted threat; whenever
likelihood or impact is supplied the stored riskScore becomes the updated
likelihood times the updated impact; severity changes only when explicitly
supplied and is never re-derived; every other field and every other threat
is unchanged. -/
theorem c9_updateThreat_rederives_riskScore (threats : List StoredThreat)
    (tid : String) (u : ThreatUpdates) :
    List.Forall₂ (fun t t2 =>
        (t.id ≠ tid → t2 = t) ∧
        (t.id = tid →
          t2.id = t.id ∧
          t2.likelihood = u.likelihood.getD t.likelihood ∧
          t2.impact = u.impact.getD t.impact ∧
          ((u.likelihood ≠ none ∨ u.impact ≠ none) →
            t2.riskScore = t2.likelihood * t2.impact) ∧
          ((u.likelihood = none ∧ u.impact = none) → t2.riskScore = t.riskScore) ∧
          (u.severity = none → t2.severity = t.severity) ∧
          (∀ s, u.severity = some s → t2.severity = s) ∧
          t2.title = t.title ∧ t2.description = t.description ∧ t2.category = t.category ∧
          t2.affectedComponents = t.affectedComponents ∧ t2.mitigations = t.mitigations))
      threats (updateThreat threats tid u) := by
  unfold updateThreat
  rw [List.forall₂_map_right_iff]
  rw [List.forall₂_same]
  intro t ht
  constructor
  · intro hne
    simp [hne]
  · intro heq
    rw [if_pos heq]
    rcases u with ⟨us, ul, ui⟩
    rcases us with _ | s <;> rcases ul with _ | l <;> rcases ui with _ | i <;>
      simp [applyThreatUpdate]

theorem c9_witness :
    List.Forall₂ (fun t t2 =>
        (t.id ≠ "t1" → t2 = t) ∧
        (t.id = "t1" →
          t2.id = t.id ∧
          t2.likelihood = (some (3 : Int)).getD t.likelihood ∧
          t2.impact = (none : Option Int).getD t.impact ∧
          ((some (3 : Int) ≠ none ∨ (none : Option Int) ≠ none) →
            t2.riskScore = t2.likelihood * t2.impact) ∧
          ((some (3 : Int) = none ∧ (none : Option Int) = none) → t2.riskScore = t.riskScore) ∧
          ((none : Option String) = none → t2.severity = t.severity) ∧
          (∀ s, (none : Option String) = some s → t2.severity = s) ∧
          t2.title = t.title ∧ t2.description = t.description ∧ t2.category = t.category ∧
          t2.affectedComponents = t.affectedComponents ∧ t2.mitigations = t.mitigations))
      [{ id := "t1", title := "x", description := "y", category := "spoofing",
         severity := "high", likelihood := 4, impact := 5, riskScore := 20,
         affectedComponents := [], mitigations := [] }]
      (updateThreat
        [{ id := "t1", title := "x", description := "y", category := "spoofing",
           severity := "high", likelihood := 4, impact := 5, riskScore := 20,
           affectedComponents := [], mitigations := [] }]
        "t1" { severity := none, likelihood := some 3, impact := none }) :=
  c9_updateThreat_rederives_riskScore
    [{ id := "t1", title := "x", description := "y", category := "spoofing",
       severity := "high", likelihood := 4, impact := 5, riskScore := 20,
       affectedComponents := [], mitigations := [] }]
    "t1" { severity := none, likelihood := some 3, impact := none }

theorem c1_witness :
    (normalizeThreats c2Input).length ≤ 5 ∧
    (normalizeThreats c2Input).Pairwise
      (fun a b => ∀ x y, a.riskScore = some x → b.riskScore = some y → y ≤ x) ∧
    (normalizeThreats c2Input).Pairwise
      (fun a b => a.riskScore = b.riskScore → a.id < b.id) ∧
    ∃ sorted : List GeneratedThreat,
      List.Perm sorted (enrichAll c2Input) ∧
      sorted.Pairwise (fun a b => threatLE a b = true) ∧
      normalizeThreats c2Input = sorted.take 5 :=
  c1_normalizer_top5_sorted_stable c2Input

theorem c6_witness :
    (buildContentBlocks c6Model [c6File1, c6File2, c6File3] [] anthropicProvider c6Storage).length
      = 1 + (if ([] : List JiraTicket).length > 0 then 1 + ([] : List JiraTicket).length else 0)
        + (if [c6File1, c6File2, c6File3].length > 0 then 1 else 0)
        + 2 * [c6File1, c6File2, c6File3].countP
            (fun f => (fileToContentBlock f anthropicProvider c6Storage).isSome)
        + 1 :=
  c6_per_item_failure_skipped.1 c6Model [c6File1, c6File2, c6File3] [] anthropicProvider c6Storage

theorem c10_witness :
    2 ≤ (buildContentBlocks loginModel [] [] openAIProvider c6Storage).length ∧
    (buildContentBlocks loginModel [] [] openAIProvider c6Storage).head?
      = some (ContentBlock.text (buildTextContext loginModel)) ∧
    (buildContentBlocks loginModel [] [] openAIProvider c6Storage).getLast?
      = some (ContentBlock.text analysisRequest) :=
  c10_blocks_never_empty loginModel [] [] openAIProvider c6Storage
